import Mathlib

/-!
Verification of the bytecode compiler/executor core of the octave
repository, centred on `src/libinterp/parse-tree/pt-bytecode.h`.

The header under `src/` declares the instruction set (`INSTR`), the
unwind/debug metadata (`unwind_entry`, `loc_entry`, `arg_name_entry`,
`unwind_data`), the compiled-unit container (`bytecode`), and the
closed tag sets `error_type` and `global_type`.  These are embedded
below directly from the source.  The compiler and the executor (VM)
themselves are not part of the sources at hand; where a property is
about their behaviour, the behaviour is modelled from the
specification's words and the corresponding definition says so in its
doc comment.
-/

namespace octave_spec

/-- The opcode vocabulary, embedded from `enum class INSTR` in
`pt-bytecode.h` (same constructors, same order). -/
inductive INSTR where
  | POP
  | DUP
  | LOAD_CST
  | MUL
  | DIV
  | ADD
  | SUB
  | RET
  | ASSIGN
  | JMP_IF
  | JMP
  | JMP_IFN
  | PUSH_SLOT_NARGOUT0
  | LE
  | LE_EQ
  | GR
  | GR_EQ
  | EQ
  | NEQ
  | INDEX_ID_NARGOUT0
  | PUSH_SLOT_INDEXED
  | POW
  | LDIV
  | EL_MUL
  | EL_DIV
  | EL_POW
  | EL_AND
  | EL_OR
  | EL_LDIV
  | NOT
  | UADD
  | USUB
  | TRANS
  | HERM
  | INCR_ID_PREFIX
  | DECR_ID_PREFIX
  | INCR_ID_POSTFIX
  | DECR_ID_POSTFIX
  | FOR_SETUP
  | FOR_COND
  | POP_N_INTS
  | PUSH_SLOT_NARGOUT1
  | INDEX_ID_NARGOUT1
  | PUSH_FCN_HANDLE
  | COLON3
  | COLON2
  | COLON3_CMD
  | COLON2_CMD
  | PUSH_TRUE
  | PUSH_FALSE
  | UNARY_TRUE
  | INDEX_IDN
  | ASSIGNN
  | PUSH_SLOT_NARGOUTN
  | SUBASSIGN_ID
  | END_ID
  | MATRIX
  | TRANS_MUL
  | MUL_TRANS
  | HERM_MUL
  | MUL_HERM
  | TRANS_LDIV
  | HERM_LDIV
  | WORDCMD
  | HANDLE_SIGNALS
  | PUSH_CELL
  | PUSH_OV_U64
  | EXPAND_CS_LIST
  | INDEX_CELL_ID_NARGOUT0
  | INDEX_CELL_ID_NARGOUT1
  | INDEX_CELL_ID_NARGOUTN
  | INCR_PREFIX
  | ROT
  | GLOBAL_INIT
  | ASSIGN_COMPOUND
  | JMP_IFDEF
  | JMP_IFNCASEMATCH
  | BRAINDEAD_PRECONDITION
  | BRAINDEAD_WARNING
  | FORCE_ASSIGN
  | PUSH_NIL
  | THROW_IFERROBJ
  | INDEX_STRUCT_NARGOUTN
  | SUBASSIGN_STRUCT
  | SUBASSIGN_CELL_ID
  | INDEX_OBJ
  | SUBASSIGN_OBJ
  | MATRIX_UNEVEN
  | LOAD_FAR_CST
  | END_OBJ
  | SET_IGNORE_OUTPUTS
  | CLEAR_IGNORE_OUTPUTS
  | SUBASSIGN_CHAINED
  | SET_SLOT_TO_STACK_DEPTH
  | DUPN
  | DEBUG
  | INDEX_STRUCT_CALL
  | END_X_N
  | EVAL
  | BIND_ANS
  | PUSH_ANON_FCN_HANDLE
  | FOR_COMPLEX_SETUP
  | FOR_COMPLEX_COND
  | PUSH_SLOT_NARGOUT1_SPECIAL
  | DISP
  | PUSH_SLOT_DISP
  | LOAD_CST_ALT2
  | LOAD_CST_ALT3
  | LOAD_CST_ALT4
  | LOAD_2_CST
  | MUL_DBL
  | ADD_DBL
  | SUB_DBL
  | DIV_DBL
  | POW_DBL
  | LE_DBL
  | LE_EQ_DBL
  | GR_DBL
  | GR_EQ_DBL
  | EQ_DBL
  | NEQ_DBL
  | INDEX_ID1_MAT_1D
  | INDEX_ID1_MAT_2D
  | PUSH_PI
  | INDEX_ID1_MATHY_UFUN
  | SUBASSIGN_ID_MAT_1D
  | INCR_ID_PREFIX_DBL
  | DECR_ID_PREFIX_DBL
  | INCR_ID_POSTFIX_DBL
  | DECR_ID_POSTFIX_DBL
  | PUSH_DBL_0
  | PUSH_DBL_1
  | PUSH_DBL_2
  | JMP_IF_BOOL
  | JMP_IFN_BOOL
  | USUB_DBL
  | NOT_DBL
  | NOT_BOOL
  | PUSH_FOLDED_CST
  | SET_FOLDED_CST
  | WIDE
deriving DecidableEq, Repr

/-- `enum class unwind_entry_type` from `pt-bytecode.h`. -/
inductive unwind_entry_type where
  | INVALID
  | FOR_LOOP
  | TRY_CATCH
  | UNWIND_PROTECT
deriving DecidableEq, Repr

/-- `struct unwind_entry` from `pt-bytecode.h`: guarded ip range,
handler/resume target, operand-stack depth to restore, construct kind. -/
structure unwind_entry where
  m_ip_start : Int
  m_ip_end : Int
  m_ip_target : Int
  m_stack_depth : Int
  m_unwind_entry_type : unwind_entry_type
deriving DecidableEq, Repr

/-- `struct loc_entry` from `pt-bytecode.h`, with the source's default
member initializers (all four fields default to `-1`). -/
structure loc_entry where
  m_ip_start : Int := -1
  m_ip_end : Int := -1
  m_col : Int := -1
  m_line : Int := -1
deriving DecidableEq, Repr

/-- Generic boxed value (`octave_value`).  The value library implementing
the actual semantics for all supported types is an external collaborator;
here a value is either a scalar of the dominant numeric type, identified
by its 64-bit representation, or some other representation identified
abstractly. -/
inductive ovalue where
  | scalarDbl (bits : Nat) : ovalue
  | other (rep : Nat) : ovalue
deriving DecidableEq, Repr

/-- `struct arg_name_entry` from `pt-bytecode.h` (`Cell m_arg_names`
modelled as the list of names it holds). -/
structure arg_name_entry where
  m_ip_start : Int
  m_ip_end : Int
  m_arg_names : List String
  m_obj_name : String
deriving DecidableEq, Repr

/-- `struct unwind_data` from `pt-bytecode.h` (the `std::map`s modelled
as association lists, `tree*` values as abstract node identifiers). -/
structure unwind_data where
  m_unwind_entries : List unwind_entry
  m_loc_entry : List loc_entry
  m_slot_to_persistent_slot : List (Int × Int)
  m_ip_to_tree : List (Int × Nat)
  m_argname_entries : List arg_name_entry
  m_external_frame_offset_to_internal : List (Int × Int)
  m_name : String
  m_file : String
  m_code_size : Nat
  m_ids_size : Nat
deriving DecidableEq, Repr

/-- `struct bytecode` from `pt-bytecode.h`: instruction stream (bytes),
constant/data pool, identifier table, and one `unwind_data`. -/
structure bytecode where
  m_code : List Nat
  m_data : List ovalue
  m_ids : List String
  m_unwind_data : unwind_data
deriving DecidableEq, Repr

/-- `enum class error_type` from `pt-bytecode.h` (same constructors,
same order). -/
inductive error_type where
  | INVALID
  | ID_UNDEFINED
  | ID_UNDEFINEDN
  | IF_UNDEFINED
  | INDEX_ERROR
  | EXECUTION_EXC
  | INTERRUPT_EXC
  | INVALID_N_EL_RHS_IN_ASSIGNMENT
  | RHS_UNDEF_IN_ASSIGNMENT
  | BAD_ALLOC
  | EXIT_EXCEPTION
deriving DecidableEq, Repr

/-- `enum class global_type` from `pt-bytecode.h` (same constructors,
same order). -/
inductive global_type where
  | GLOBAL
  | PERSISTENT
  | GLOBAL_OR_PERSISTENT
deriving DecidableEq, Repr

instance : Fintype global_type :=
  ⟨⟨{global_type.GLOBAL, global_type.PERSISTENT,
     global_type.GLOBAL_OR_PERSISTENT}, by decide⟩, by intro x; cases x <;> decide⟩

/-- The correspondence between each type-specialized arithmetic/comparison
opcode for the dominant numeric scalar type and its generic opcode
(`MUL_DBL` and `MUL`, … — the pairing evident from the opcode names in
`enum class INSTR`); `none` for every opcode that is not one of the
eleven specialized binary opcodes. -/
def genericOf : INSTR → Option INSTR
  | .MUL_DBL => some .MUL
  | .ADD_DBL => some .ADD
  | .SUB_DBL => some .SUB
  | .DIV_DBL => some .DIV
  | .POW_DBL => some .POW
  | .LE_DBL => some .LE
  | .LE_EQ_DBL => some .LE_EQ
  | .GR_DBL => some .GR
  | .GR_EQ_DBL => some .GR_EQ
  | .EQ_DBL => some .EQ
  | .NEQ_DBL => some .NEQ
  | _ => none

/-- Modelled from the spec: execution of a generic binary
arithmetic/comparison opcode (`MUL`, `ADD`, …) — its implementation in
the executor is not among the sources at hand.  The generic opcode
dispatches dynamically through the value library: `dblFn i` is the value
library's result for opcode `i` on two scalars of the dominant numeric
type (given by their bit representations), and `vlib i` its result on
any other operand representations; both are parameters because the
value library is an external collaborator. -/
def execGeneric (dblFn : INSTR → Nat → Nat → ovalue)
    (vlib : INSTR → ovalue → ovalue → ovalue)
    (i : INSTR) (v1 v2 : ovalue) : ovalue :=
  match v1, v2 with
  | .scalarDbl a, .scalarDbl b => dblFn i a b
  | _, _ => vlib i v1 v2

/-- Modelled from the spec: execution of a type-specialized binary opcode
(`MUL_DBL`, …) — its implementation in the executor is not among the
sources at hand.  The opcode cheaply verifies its operands' actual
representation: when both are scalars of the dominant numeric type it
takes the fast path (the value library's double-scalar operation
directly); otherwise it falls through to the generic behaviour in place.
`none` when the opcode is not a specialized binary opcode. -/
def execSpecialized (dblFn : INSTR → Nat → Nat → ovalue)
    (vlib : INSTR → ovalue → ovalue → ovalue)
    (iSpec : INSTR) (v1 v2 : ovalue) : Option ovalue :=
  (genericOf iSpec).map fun iGen =>
    match v1, v2 with
    | .scalarDbl a, .scalarDbl b => dblFn iGen a b
    | _, _ => execGeneric dblFn vlib iGen v1 v2

/-- The error categories named by the specification's taxonomy. -/
inductive spec_error_category where
  | idUndefinedValueUse
  | idUndefinedCondUse
  | indexingError
  | assignTargetCountMismatch
  | rhsUndefInAssignment
  | allocationFailure
  | propagatedInterrupt
  | explicitExit
deriving DecidableEq, Repr

/-- Which category of the specification's taxonomy an `error_type` tag
falls into: `ID_UNDEFINED`/`ID_UNDEFINEDN` are the value-use variants of
identifier-undefined, `IF_UNDEFINED` the conditional-use variant; the
sentinel `INVALID` and the general propagated execution exception
`EXECUTION_EXC` fall into none of the listed categories. -/
def errorCategoryOf : error_type → Option spec_error_category
  | .INVALID => none
  | .ID_UNDEFINED => some .idUndefinedValueUse
  | .ID_UNDEFINEDN => some .idUndefinedValueUse
  | .IF_UNDEFINED => some .idUndefinedCondUse
  | .INDEX_ERROR => some .indexingError
  | .EXECUTION_EXC => none
  | .INTERRUPT_EXC => some .propagatedInterrupt
  | .INVALID_N_EL_RHS_IN_ASSIGNMENT => some .assignTargetCountMismatch
  | .RHS_UNDEF_IN_ASSIGNMENT => some .rhsUndefInAssignment
  | .BAD_ALLOC => some .allocationFailure
  | .EXIT_EXCEPTION => some .explicitExit

/-- Modelled from the spec: how a call/index instruction honours its
requested-result-count immediate — the executor's implementation is not
among the sources at hand.  From the list of values the call/index
logically yields, a request for `nargout` results pushes the first
`nargout` of them, in order (0 suppresses result construction, 1
requests the primary result); `none` when the call does not yield
enough values. -/
def push_call_results (results : List ovalue) (nargout : Nat) :
    Option (List ovalue) :=
  if nargout ≤ results.length then some (results.take nargout) else none

/-- A default-constructed `loc_entry` (all member initializers apply). -/
def defaultLocEntry : loc_entry := {}

/-- Whether a `loc_entry`'s ip range `[m_ip_start, m_ip_end)` covers the
given ip (the lookup test of the diagnostic path). -/
def locEntryCovers (e : loc_entry) (ip : Int) : Bool :=
  decide (e.m_ip_start ≤ ip) && decide (ip < e.m_ip_end)

/-- The two evaluator paths that can service a call: the bytecode VM and
the fallback tree-walking evaluator. -/
inductive evaluator_kind where
  | vm
  | tree_walker
deriving DecidableEq, Repr

/-- Per-call context (which compiled unit is called, with which argument
values) — everything about a call other than the process-wide flag. -/
structure call_site where
  m_fcn : bytecode
  m_args : List ovalue

/-- Modelled from the spec: the selection between the bytecode VM and the
fallback tree-walking evaluator — the call sites of the flag are not
among the sources at hand.  Per the header's comment on
`V__enable_vm_eval__` ("If TRUE, use VM evaluator rather than tree
walker"), the choice reads only the single process-wide boolean flag;
the per-call context plays no part. -/
def select_evaluator (enable_vm_eval : Bool) (_c : call_site) :
    evaluator_kind :=
  if enable_vm_eval then .vm else .tree_walker

/-- Statement-level shape of a function body as the compiler sees it: an
unprotected statement, sequencing, and the three protected constructs
(loop body, try/catch pair, unwind-protect block). -/
inductive ptree where
  | stmt : ptree
  | seq : ptree → ptree → ptree
  | loopStmt : ptree → ptree
  | tryCatchStmt : ptree → ptree → ptree
  | unwindProtectStmt : ptree → ptree → ptree
deriving DecidableEq, Repr

/-- Modelled from the spec: the compiler's single forward pass over a
statement tree, as far as unwind metadata is concerned — the compiler's
implementation is not among the sources at hand.  Starting at
instruction pointer `ip` with operand-stack depth `sd` at the statement
boundary, it returns the ip one past the emitted code together with the
`unwind_entry` records emitted, one per protected construct, each
recording the guarded range, the handler/resume target, the restore
depth and the construct kind; guarded regions nest to match lexical
nesting.  A loop emits its setup opcode, the body, then its
condition/backedge opcode, and is guarded whole with the break target
one past it; a try/catch emits the guarded body, a jump over the
handler, then the handler, the target being the handler's start; an
unwind-protect emits the guarded block, a transfer marker, then the
cleanup block, the target being the cleanup's start. -/
def compile (ip sd : Int) : ptree → Int × List unwind_entry
  | .stmt => (ip + 1, [])
  | .seq a b =>
    let ra := compile ip sd a
    let rb := compile ra.1 sd b
    (rb.1, ra.2 ++ rb.2)
  | .loopStmt body =>
    let rb := compile (ip + 1) sd body
    (rb.1 + 1,
      { m_ip_start := ip, m_ip_end := rb.1 + 1, m_ip_target := rb.1 + 1,
        m_stack_depth := sd,
        m_unwind_entry_type := unwind_entry_type.FOR_LOOP } :: rb.2)
  | .tryCatchStmt a b =>
    let ra := compile ip sd a
    let rb := compile (ra.1 + 1) sd b
    (rb.1,
      { m_ip_start := ip, m_ip_end := ra.1, m_ip_target := ra.1 + 1,
        m_stack_depth := sd,
        m_unwind_entry_type := unwind_entry_type.TRY_CATCH }
        :: (ra.2 ++ rb.2))
  | .unwindProtectStmt a b =>
    let ra := compile ip sd a
    let rb := compile (ra.1 + 1) sd b
    (rb.1,
      { m_ip_start := ip, m_ip_end := ra.1, m_ip_target := ra.1 + 1,
        m_stack_depth := sd,
        m_unwind_entry_type := unwind_entry_type.UNWIND_PROTECT }
        :: (ra.2 ++ rb.2))

/-- Two guarded ranges either nest (one contained in the other) or are
disjoint — no partial overlap. -/
def nested_or_disjoint (e1 e2 : unwind_entry) : Prop :=
  (e2.m_ip_start ≤ e1.m_ip_start ∧ e1.m_ip_end ≤ e2.m_ip_end) ∨
  (e1.m_ip_start ≤ e2.m_ip_start ∧ e2.m_ip_end ≤ e1.m_ip_end) ∨
  e1.m_ip_end ≤ e2.m_ip_start ∨ e2.m_ip_end ≤ e1.m_ip_start

instance (e1 e2 : unwind_entry) : Decidable (nested_or_disjoint e1 e2) := by
  unfold nested_or_disjoint; infer_instance

/-- State of one executor invocation: current ip, operand stack, local
frame, and the active (shared, read-only) `bytecode`. -/
structure vm_state where
  m_bytecode : bytecode
  m_ip : Nat
  m_stack : List ovalue
  m_frame : List ovalue
deriving DecidableEq, Repr

/-- Modelled from the spec: one iteration of the executor's main loop
(fetch, dispatch by opcode, execute, advance ip unless redirected) — the
executor's implementation is not among the sources at hand.  Dispatch is
on the fetched opcode byte, the opcode numbers being the positions in
`enum class INSTR` (`POP` = 0, `DUP` = 1, `LOAD_CST` = 2 with a
constant-pool-index operand byte, `JMP` = 10 with a target operand
byte); other opcodes advance past the opcode byte.  Every case updates
only the ip, the operand stack and the frame. -/
def vm_step (s : vm_state) : vm_state :=
  match s.m_bytecode.m_code.get? s.m_ip with
  | none => s
  | some b =>
    if b = 0 then
      { s with m_ip := s.m_ip + 1, m_stack := s.m_stack.tail }
    else if b = 1 then
      { s with m_ip := s.m_ip + 1,
               m_stack := match s.m_stack with
                          | [] => []
                          | v :: r => v :: v :: r }
    else if b = 2 then
      let idx := s.m_bytecode.m_code.getD (s.m_ip + 1) 0
      { s with m_ip := s.m_ip + 2,
               m_stack :=
                 s.m_bytecode.m_data.getD idx (ovalue.other 0) :: s.m_stack }
    else if b = 10 then
      { s with m_ip := s.m_bytecode.m_code.getD (s.m_ip + 1) 0 }
    else
      { s with m_ip := s.m_ip + 1 }

/-- `n` iterations of the executor's main loop. -/
def vm_run (n : Nat) (s : vm_state) : vm_state :=
  match n with
  | 0 => s
  | Nat.succ m => vm_run m (vm_step s)

theorem compile_fst_lt : ∀ (t : ptree) (ip sd : Int), ip < (compile ip sd t).1 := by
  intro t
  induction t with
  | stmt => intro ip sd; simp [compile]
  | seq a b iha ihb =>
    intro ip sd
    have h1 := iha ip sd
    have h2 := ihb (compile ip sd a).1 sd
    simp only [compile]
    omega
  | loopStmt body ih =>
    intro ip sd
    have h := ih (ip + 1) sd
    simp only [compile]
    omega
  | tryCatchStmt a b iha ihb =>
    intro ip sd
    have h1 := iha ip sd
    have h2 := ihb ((compile ip sd a).1 + 1) sd
    simp only [compile]
    omega
  | unwindProtectStmt a b iha ihb =>
    intro ip sd
    have h1 := iha ip sd
    have h2 := ihb ((compile ip sd a).1 + 1) sd
    simp only [compile]
    omega

theorem compile_entry_bounds : ∀ (t : ptree) (ip sd : Int) (e : unwind_entry),
    e ∈ (compile ip sd t).2 →
    ip ≤ e.m_ip_start ∧ e.m_ip_start < e.m_ip_end ∧
      e.m_ip_end ≤ (compile ip sd t).1 := by
  intro t
  induction t with
  | stmt => intro ip sd e he; simp [compile] at he
  | seq a b iha ihb =>
    intro ip sd e he
    have hlt1 := compile_fst_lt a ip sd
    have hlt2 := compile_fst_lt b (compile ip sd a).1 sd
    simp only [compile, List.mem_append] at he
    simp only [compile]
    rcases he with h | h
    · have := iha ip sd e h
      omega
    · have := ihb (compile ip sd a).1 sd e h
      omega
  | loopStmt body ih =>
    intro ip sd e he
    have hlt := compile_fst_lt body (ip + 1) sd
    simp only [compile, List.mem_cons] at he
    simp only [compile]
    rcases he with rfl | h
    · simp only []
      omega
    · have := ih (ip + 1) sd e h
      omega
  | tryCatchStmt a b iha ihb =>
    intro ip sd e he
    have hlt1 := compile_fst_lt a ip sd
    have hlt2 := compile_fst_lt b ((compile ip sd a).1 + 1) sd
    simp only [compile, List.mem_cons, List.mem_append] at he
    simp only [compile]
    rcases he with rfl | h | h
    · simp only []
      omega
    · have := iha ip sd e h
      omega
    · have := ihb ((compile ip sd a).1 + 1) sd e h
      omega
  | unwindProtectStmt a b iha ihb =>
    intro ip sd e he
    have hlt1 := compile_fst_lt a ip sd
    have hlt2 := compile_fst_lt b ((compile ip sd a).1 + 1) sd
    simp only [compile, List.mem_cons, List.mem_append] at he
    simp only [compile]
    rcases he with rfl | h | h
    · simp only []
      omega
    · have := iha ip sd e h
      omega
    · have := ihb ((compile ip sd a).1 + 1) sd e h
      omega

theorem compile_entries_pairwise : ∀ (t : ptree) (ip sd : Int),
    List.Pairwise nested_or_disjoint (compile ip sd t).2 := by
  intro t
  induction t with
  | stmt => intro ip sd; simp [compile]
  | seq a b iha ihb =>
    intro ip sd
    simp only [compile]
    refine List.pairwise_append.2
      ⟨iha ip sd, ihb (compile ip sd a).1 sd, ?_⟩
    intro e1 h1 e2 h2
    have b1 := compile_entry_bounds a ip sd e1 h1
    have b2 := compile_entry_bounds b (compile ip sd a).1 sd e2 h2
    simp only [nested_or_disjoint]
    omega
  | loopStmt body ih =>
    intro ip sd
    simp only [compile]
    refine List.pairwise_cons.2 ⟨?_, ih (ip + 1) sd⟩
    intro e he
    have hb := compile_entry_bounds body (ip + 1) sd e he
    simp only [nested_or_disjoint]
    omega
  | tryCatchStmt a b iha ihb =>
    intro ip sd
    simp only [compile]
    refine List.pairwise_cons.2 ⟨?_, ?_⟩
    · intro e he
      rcases List.mem_append.1 he with h | h
      · have hb := compile_entry_bounds a ip sd e h
        simp only [nested_or_disjoint]
        omega
      · have hb := compile_entry_bounds b ((compile ip sd a).1 + 1) sd e h
        simp only [nested_or_disjoint]
        omega
    · refine List.pairwise_append.2
        ⟨iha ip sd, ihb ((compile ip sd a).1 + 1) sd, ?_⟩
      intro e1 h1 e2 h2
      have b1 := compile_entry_bounds a ip sd e1 h1
      have b2 := compile_entry_bounds b ((compile ip sd a).1 + 1) sd e2 h2
      simp only [nested_or_disjoint]
      omega
  | unwindProtectStmt a b iha ihb =>
    intro ip sd
    simp only [compile]
    refine List.pairwise_cons.2 ⟨?_, ?_⟩
    · intro e he
      rcases List.mem_append.1 he with h | h
      · have hb := compile_entry_bounds a ip sd e h
        simp only [nested_or_disjoint]
        omega
      · have hb := compile_entry_bounds b ((compile ip sd a).1 + 1) sd e h
        simp only [nested_or_disjoint]
        omega
    · refine List.pairwise_append.2
        ⟨iha ip sd, ihb ((compile ip sd a).1 + 1) sd, ?_⟩
      intro e1 h1 e2 h2
      have b1 := compile_entry_bounds a ip sd e1 h1
      have b2 := compile_entry_bounds b ((compile ip sd a).1 + 1) sd e2 h2
      simp only [nested_or_disjoint]
      omega

theorem compile_entry_kind : ∀ (t : ptree) (ip sd : Int) (e : unwind_entry),
    e ∈ (compile ip sd t).2 →
    e.m_unwind_entry_type = unwind_entry_type.FOR_LOOP ∨
    e.m_unwind_entry_type = unwind_entry_type.TRY_CATCH ∨
    e.m_unwind_entry_type = unwind_entry_type.UNWIND_PROTECT := by
  intro t
  induction t with
  | stmt => intro ip sd e he; simp [compile] at he
  | seq a b iha ihb =>
    intro ip sd e he
    simp only [compile, List.mem_append] at he
    rcases he with h | h
    · exact iha ip sd e h
    · exact ihb (compile ip sd a).1 sd e h
  | loopStmt body ih =>
    intro ip sd e he
    simp only [compile, List.mem_cons] at he
    rcases he with rfl | h
    · exact Or.inl rfl
    · exact ih (ip + 1) sd e h
  | tryCatchStmt a b iha ihb =>
    intro ip sd e he
    simp only [compile, List.mem_cons, List.mem_append] at he
    rcases he with rfl | h | h
    · exact Or.inr (Or.inl rfl)
    · exact iha ip sd e h
    · exact ihb ((compile ip sd a).1 + 1) sd e h
  | unwindProtectStmt a b iha ihb =>
    intro ip sd e he
    simp only [compile, List.mem_cons, List.mem_append] at he
    rcases he with rfl | h | h
    · exact Or.inr (Or.inr rfl)
    · exact iha ip sd e h
    · exact ihb ((compile ip sd a).1 + 1) sd e h

theorem vm_step_preserves_bytecode (s : vm_state) :
    (vm_step s).m_bytecode = s.m_bytecode := by
  unfold vm_step
  split
  · rfl
  · split
    · rfl
    · split
      · rfl
      · split
        · rfl
        · split <;> rfl

theorem vm_run_preserves_bytecode (n : Nat) :
    ∀ s : vm_state, (vm_run n s).m_bytecode = s.m_bytecode := by
  induction n with
  | zero => intro s; rfl
  | succ m ih =>
    intro s
    show (vm_run m (vm_step s)).m_bytecode = s.m_bytecode
    rw [ih (vm_step s), vm_step_preserves_bytecode]

/-- Claim C1: executing a type-specialized binary opcode (`MUL_DBL`, …,
`NEQ_DBL`) on any pair of operands produces the same result value as
executing its corresponding generic opcode (`MUL`, …, `NEQ`) on the
same operands — when the representation guard passes, the fast path
computes exactly the value library's double-scalar result, and when the
guard fails the specialized opcode falls through to the generic
behaviour — for every value library (`dblFn`, `vlib`); and the
specialized/generic correspondence is exactly the eleven listed
pairs. -/
theorem c1_specialized_opcode_refines_generic :
    (genericOf INSTR.MUL_DBL = some INSTR.MUL ∧
     genericOf INSTR.ADD_DBL = some INSTR.ADD ∧
     genericOf INSTR.SUB_DBL = some INSTR.SUB ∧
     genericOf INSTR.DIV_DBL = some INSTR.DIV ∧
     genericOf INSTR.POW_DBL = some INSTR.POW ∧
     genericOf INSTR.LE_DBL = some INSTR.LE ∧
     genericOf INSTR.LE_EQ_DBL = some INSTR.LE_EQ ∧
     genericOf INSTR.GR_DBL = some INSTR.GR ∧
     genericOf INSTR.GR_EQ_DBL = some INSTR.GR_EQ ∧
     genericOf INSTR.EQ_DBL = some INSTR.EQ ∧
     genericOf INSTR.NEQ_DBL = some INSTR.NEQ) ∧
    ∀ (dblFn : INSTR → Nat → Nat → ovalue)
      (vlib : INSTR → ovalue → ovalue → ovalue)
      (iSpec : INSTR) (v1 v2 : ovalue),
      execSpecialized dblFn vlib iSpec v1 v2 =
        (genericOf iSpec).map fun iGen => execGeneric dblFn vlib iGen v1 v2 := by
  refine ⟨⟨rfl, rfl, rfl, rfl, rfl, rfl, rfl, rfl, rfl, rfl, rfl⟩, ?_⟩
  intro dblFn vlib iSpec v1 v2
  cases hg : genericOf iSpec with
  | none => simp [execSpecialized, hg]
  | some iGen => cases v1 <;> cases v2 <;> simp [execSpecialized, execGeneric, hg]

/-- Claim C2: every `unwind_entry` emitted by the compiler for a
compiled unit satisfies `m_ip_start < m_ip_end`, and the guarded ranges
of any two entries of the same frame either nest or are disjoint — no
partial overlap. -/
theorem c2_unwind_entries_wellformed (ip sd : Int) (t : ptree) :
    (∀ e ∈ (compile ip sd t).2, e.m_ip_start < e.m_ip_end) ∧
    List.Pairwise nested_or_disjoint (compile ip sd t).2 :=
  ⟨fun e he => (compile_entry_bounds t ip sd e he).2.1,
   compile_entries_pairwise t ip sd⟩

/-- Witness for C2 at a concrete statement tree (a loop containing a
try/catch, followed by an unwind-protect). -/
theorem c2_unwind_entries_wellformed_witness :
    (∀ e ∈ (compile 0 0 (ptree.seq
        (ptree.loopStmt (ptree.tryCatchStmt ptree.stmt ptree.stmt))
        (ptree.unwindProtectStmt ptree.stmt ptree.stmt))).2,
      e.m_ip_start < e.m_ip_end) ∧
    List.Pairwise nested_or_disjoint (compile 0 0 (ptree.seq
        (ptree.loopStmt (ptree.tryCatchStmt ptree.stmt ptree.stmt))
        (ptree.unwindProtectStmt ptree.stmt ptree.stmt))).2 :=
  c2_unwind_entries_wellformed 0 0 (ptree.seq
    (ptree.loopStmt (ptree.tryCatchStmt ptree.stmt ptree.stmt))
    (ptree.unwindProtectStmt ptree.stmt ptree.stmt))

/-- Counterexample for C3: the claim's category list is not exhaustive —
the tag `error_type.EXECUTION_EXC` (a propagated general execution
exception) falls into none of the listed categories, so it is not the
case that every `error_type` value does. -/
theorem c3_error_taxonomy_counterexample :
    ¬ ∀ e : error_type, (errorCategoryOf e).isSome := by
  intro h
  have hx := h error_type.EXECUTION_EXC
  simp [errorCategoryOf] at hx

/-- Claim C3 as amended: an `error_type` value falls into one of the
listed categories exactly when it is neither the sentinel `INVALID` nor
the general propagated execution exception `EXECUTION_EXC`; the tag set
consists of the listed categories plus those two values. -/
theorem c3_error_taxonomy_amended :
    ∀ e : error_type,
      (errorCategoryOf e).isSome ↔
        (e ≠ error_type.INVALID ∧ e ≠ error_type.EXECUTION_EXC) := by
  intro e
  cases e <;> simp [errorCategoryOf]

/-- Claim C4: a call/index instruction whose requested-result-count
immediate is 0 constructs no result value; one requesting 1 pushes the
primary result; and one requesting `n` from a call/index yielding
enough values pushes exactly `n` values, in order. -/
theorem c4_nargout_behavior (results : List ovalue) (n : Nat)
    (h : n ≤ results.length) :
    push_call_results results 0 = some [] ∧
    (∀ (v : ovalue) (vs : List ovalue),
      push_call_results (v :: vs) 1 = some [v]) ∧
    push_call_results results n = some (results.take n) ∧
    (results.take n).length = n := by
  refine ⟨?_, ?_, ?_, ?_⟩
  · simp [push_call_results]
  · intro v vs
    simp [push_call_results]
  · simp [push_call_results, h]
  · simp [List.length_take]
    omega

/-- Witness for C4 at a concrete three-value result list with
requested-result-count 2. -/
theorem c4_nargout_behavior_witness :
    2 ≤ ([ovalue.scalarDbl 1, ovalue.scalarDbl 2,
          ovalue.other 0] : List ovalue).length ∧
    (push_call_results [ovalue.scalarDbl 1, ovalue.scalarDbl 2,
        ovalue.other 0] 0 = some [] ∧
     (∀ (v : ovalue) (vs : List ovalue),
        push_call_results (v :: vs) 1 = some [v]) ∧
     push_call_results [ovalue.scalarDbl 1, ovalue.scalarDbl 2,
        ovalue.other 0] 2 =
       some ([ovalue.scalarDbl 1, ovalue.scalarDbl 2,
              ovalue.other 0].take 2) ∧
     ([ovalue.scalarDbl 1, ovalue.scalarDbl 2,
       ovalue.other 0].take 2).length = 2) :=
  ⟨by decide,
   c4_nargout_behavior [ovalue.scalarDbl 1, ovalue.scalarDbl 2,
     ovalue.other 0] 2 (by decide)⟩

/-- Counterexample for C5: `global_type` does not have four values — the
claimed class "ordinary" has no tag; the tag set's cardinality is 3,
not 4. -/
theorem c5_global_type_counterexample : Fintype.card global_type ≠ 4 := by
  decide

/-- Claim C5 as amended: the `global_type` tag set is closed and
consists exactly of the three classes global, persistent, and
global-or-persistent (ordinary variables carry no `global_type` tag). -/
theorem c5_global_type_closed :
    (∀ g : global_type,
      g = global_type.GLOBAL ∨ g = global_type.PERSISTENT ∨
        g = global_type.GLOBAL_OR_PERSISTENT) ∧
    Fintype.card global_type = 3 := by
  refine ⟨?_, by decide⟩
  intro g
  cases g
  · exact Or.inl rfl
  · exact Or.inr (Or.inl rfl)
  · exact Or.inr (Or.inr rfl)

/-- Claim C6: an `unwind_entry` consists exactly of its guarded range,
handler/resume target, restore depth and construct kind (two entries
agreeing on these five fields are equal — there is no further
component), and the kind of every entry the compiler emits for a
protected construct is one of loop, try/catch, unwind-protect. -/
theorem c6_unwind_entry_fields_and_kind :
    (∀ e1 e2 : unwind_entry,
      e1.m_ip_start = e2.m_ip_start → e1.m_ip_end = e2.m_ip_end →
      e1.m_ip_target = e2.m_ip_target →
      e1.m_stack_depth = e2.m_stack_depth →
      e1.m_unwind_entry_type = e2.m_unwind_entry_type → e1 = e2) ∧
    ∀ (ip sd : Int) (t : ptree), ∀ e ∈ (compile ip sd t).2,
      e.m_unwind_entry_type = unwind_entry_type.FOR_LOOP ∨
      e.m_unwind_entry_type = unwind_entry_type.TRY_CATCH ∨
      e.m_unwind_entry_type = unwind_entry_type.UNWIND_PROTECT := by
  constructor
  · intro e1 e2 h1 h2 h3 h4 h5
    cases e1
    cases e2
    simp_all
  · intro ip sd t e he
    exact compile_entry_kind t ip sd e he

/-- Witness for C6 at a concrete entry and a concrete statement tree
(an unwind-protect whose guarded block holds a loop). -/
theorem c6_unwind_entry_fields_and_kind_witness :
    unwind_entry.mk 0 2 3 1 unwind_entry_type.FOR_LOOP =
      unwind_entry.mk 0 2 3 1 unwind_entry_type.FOR_LOOP ∧
    (∀ e ∈ (compile 0 0 (ptree.unwindProtectStmt
        (ptree.loopStmt ptree.stmt) ptree.stmt)).2,
      e.m_unwind_entry_type = unwind_entry_type.FOR_LOOP ∨
      e.m_unwind_entry_type = unwind_entry_type.TRY_CATCH ∨
      e.m_unwind_entry_type = unwind_entry_type.UNWIND_PROTECT) :=
  ⟨c6_unwind_entry_fields_and_kind.1 _ _ rfl rfl rfl rfl rfl,
   c6_unwind_entry_fields_and_kind.2 0 0 (ptree.unwindProtectStmt
     (ptree.loopStmt ptree.stmt) ptree.stmt)⟩

/-- Claim C7: a `bytecode` holds exactly its instruction stream,
constant/data pool, identifier table and one `unwind_data` (two
bytecodes agreeing on these four components are equal — there is no
further component), and no number of executor steps changes the
`bytecode` an invocation runs: every field of it is the same before and
after any execution. -/
theorem c7_bytecode_immutable :
    (∀ (s : vm_state) (n : Nat), (vm_run n s).m_bytecode = s.m_bytecode) ∧
    ∀ b1 b2 : bytecode,
      b1.m_code = b2.m_code → b1.m_data = b2.m_data →
      b1.m_ids = b2.m_ids → b1.m_unwind_data = b2.m_unwind_data →
      b1 = b2 := by
  constructor
  · intro s n
    exact vm_run_preserves_bytecode n s
  · intro b1 b2 h1 h2 h3 h4
    cases b1
    cases b2
    simp_all

/-- Witness for C7: a concrete bytecode (load-constant, dup, pop, jump,
return) run for five steps, and the component-wise equality applied to
that bytecode. -/
theorem c7_bytecode_immutable_witness :
    (vm_run 5 (vm_state.mk
      (bytecode.mk [2, 0, 1, 1, 10, 1, 7] [ovalue.scalarDbl 5] ["x"]
        (unwind_data.mk [] [] [] [] [] [] "f" "f.m" 7 1))
      0 [] [])).m_bytecode =
      (vm_state.mk
        (bytecode.mk [2, 0, 1, 1, 10, 1, 7] [ovalue.scalarDbl 5] ["x"]
          (unwind_data.mk [] [] [] [] [] [] "f" "f.m" 7 1))
        0 [] []).m_bytecode ∧
    bytecode.mk [2, 0, 1, 1, 10, 1, 7] [ovalue.scalarDbl 5] ["x"]
        (unwind_data.mk [] [] [] [] [] [] "f" "f.m" 7 1) =
      bytecode.mk [2, 0, 1, 1, 10, 1, 7] [ovalue.scalarDbl 5] ["x"]
        (unwind_data.mk [] [] [] [] [] [] "f" "f.m" 7 1) :=
  ⟨c7_bytecode_immutable.1 _ 5,
   c7_bytecode_immutable.2 _ _ rfl rfl rfl rfl⟩

/-- Claim C9: a default-constructed `loc_entry` has all four fields
equal to -1, so its ip range is empty (it covers no ip) and it carries
no line/column — the "unknown location" diagnostic case. -/
theorem c9_default_loc_entry :
    defaultLocEntry.m_ip_start = -1 ∧ defaultLocEntry.m_ip_end = -1 ∧
    defaultLocEntry.m_col = -1 ∧ defaultLocEntry.m_line = -1 ∧
    ∀ ip : Int, locEntryCovers defaultLocEntry ip = false := by
  refine ⟨rfl, rfl, rfl, rfl, ?_⟩
  intro ip
  simp only [locEntryCovers, defaultLocEntry, Bool.and_eq_false_iff,
    decide_eq_false_iff_not]
  omega

/-- Claim C10: the choice between the bytecode VM and the fallback
tree-walking evaluator reads only the single process-wide boolean flag:
two calls made under the same flag value are serviced by the same
evaluator path, whatever their per-call context. -/
theorem c10_selector_depends_only_on_flag :
    (∀ (flag : Bool) (c1 c2 : call_site),
      select_evaluator flag c1 = select_evaluator flag c2) ∧
    ∀ c : call_site,
      select_evaluator true c = evaluator_kind.vm ∧
      select_evaluator false c = evaluator_kind.tree_walker :=
  ⟨fun _ _ _ => rfl, fun _ => ⟨rfl, rfl⟩⟩

end octave_spec
